import Mathlib

/-!
Verification development for the `grakn-bank-kb` data loader
(`src/load_data.js`, final revision).  The loader reads CSV rows, builds one
Graql insert (or match+insert) statement per row by splicing coerced field
values into template literals, executes the statements on a write transaction
and commits once per loader; a main routine runs the seven loaders in a fixed
order.  This file embeds the field coercions, the per-record statement
builders, and a trace model of loader/orchestrator execution, and proves the
specification claims about them.
-/

namespace LoadData

/-! ## Characters and digit parsing -/

/-- Decimal digit test on a character (code points 48-57). -/
def isDigitChar (c : Char) : Bool := 48 ≤ c.toNat && c.toNat ≤ 57

/-- Value of a list of decimal digit characters, most significant first. -/
def digitsVal (ds : List Char) : Nat :=
  ds.foldl (fun a c => a * 10 + (c.toNat - 48)) 0

/-- All characters are decimal digits. -/
def allDigits (ds : List Char) : Bool := ds.all isDigitChar

/-- Split a character list at every occurrence of the separator. -/
def splitOnChar (sep : Char) : List Char → List (List Char)
  | [] => [[]]
  | c :: rest =>
    let r := splitOnChar sep rest
    if c = sep then [] :: r
    else
      match r with
      | g :: gs => (c :: g) :: gs
      | [] => [[c]]

/-- Exactly two decimal digits, e.g. the `MM`, `DD`, `HH`, `mm`, `ss` groups
of an ISO-8601 date-time string. -/
def twoDigitNat? (cs : List Char) : Option Nat :=
  match cs with
  | [a, b] => if isDigitChar a && isDigitChar b then some (digitsVal [a, b]) else none
  | _ => none

/-- Exactly four decimal digits, the `YYYY` group of an ISO-8601 string. -/
def fourDigitNat? (cs : List Char) : Option Nat :=
  match cs with
  | [a, b, c, d] =>
    if isDigitChar a && isDigitChar b && isDigitChar c && isDigitChar d then
      some (digitsVal [a, b, c, d])
    else none
  | _ => none

/-! ## Date-time coercion

The source uses moment.js: `moment(isoString).format('YYYY-MM-DDThh:mm:ss.SSS')`
(`toGraknDateTime`, src/load_data.js lines 220-222).  We model moment's
ISO-8601 parse of the strings appearing in the data files
(`YYYY-MM-DDTHH:mm:ss` with an optional fraction of a second, of which the
first three digits become the millisecond field) and its formatter.  Moment's
many fallback input formats are not modelled; an unparsable string formats as
`"Invalid date"`, as moment prints invalid instances. -/

/-- Calendar date-time as moment.js stores it after parsing
(hour is the 24-hour-clock hour of the input). -/
structure Moment where
  year : Nat
  month : Nat
  day : Nat
  hour : Nat
  minute : Nat
  second : Nat
  millisecond : Nat
deriving DecidableEq

/-- Gregorian leap-year rule, as moment.js validates dates. -/
def isLeapYear (y : Nat) : Bool := (y % 4 == 0 && y % 100 != 0) || y % 400 == 0

/-- Days in a month, used by moment's date validation. -/
def daysInMonth (y m : Nat) : Nat :=
  if m = 2 then (if isLeapYear y then 29 else 28)
  else if m = 4 ∨ m = 6 ∨ m = 9 ∨ m = 11 then 30
  else 31

/-- Millisecond field from the fractional-second digit group: the first three
digits, right-padded with zeros (moment keeps millisecond precision). -/
def parseFraction (ds : List Char) : Option Nat :=
  if ds.isEmpty then none
  else if allDigits ds then
    let d3 := ds.take 3
    some (digitsVal d3 * 10 ^ (3 - d3.length))
  else none

/-- Assemble and range-check the seven groups of an ISO-8601 date-time. -/
def mkMoment? (ys ms ds hs mins ss : List Char) (frac? : Option Nat) :
    Option Moment := do
  let y ← fourDigitNat? ys
  let mo ← twoDigitNat? ms
  let d ← twoDigitNat? ds
  let h ← twoDigitNat? hs
  let mi ← twoDigitNat? mins
  let sec ← twoDigitNat? ss
  let milli ← frac?
  if 1 ≤ mo ∧ mo ≤ 12 ∧ 1 ≤ d ∧ d ≤ daysInMonth y mo ∧ h ≤ 23 ∧ mi ≤ 59 ∧ sec ≤ 59 then
    some ⟨y, mo, d, h, mi, sec, milli⟩
  else none

/-- moment's ISO-8601 parse of the source date-time strings:
`YYYY-MM-DDTHH:mm:ss` with an optional `.`-separated fraction. -/
def parseIsoDateTime (s : String) : Option Moment :=
  match splitOnChar 'T' s.data with
  | [datePart, timePart] =>
    match splitOnChar '-' datePart with
    | [ys, ms, ds] =>
      match splitOnChar ':' timePart with
      | [hs, mins, secPart] =>
        match splitOnChar '.' secPart with
        | [ss] => mkMoment? ys ms ds hs mins ss (some 0)
        | [ss, fs] => mkMoment? ys ms ds hs mins ss (parseFraction fs)
        | _ => none
      | _ => none
    | _ => none
  | _ => none

/-- Left-pad a decimal rendering with zeros to two digits (moment `MM`, `DD`,
`hh`, `mm`, `ss` tokens). -/
def pad2 (n : Nat) : String := if n < 10 then "0" ++ toString n else toString n

/-- Left-pad to three digits (moment `SSS` token). -/
def pad3 (n : Nat) : String :=
  if n < 10 then "00" ++ toString n
  else if n < 100 then "0" ++ toString n
  else toString n

/-- Left-pad to four digits (moment `YYYY` token). -/
def pad4 (n : Nat) : String :=
  if n < 10 then "000" ++ toString n
  else if n < 100 then "00" ++ toString n
  else if n < 1000 then "0" ++ toString n
  else toString n

/-- moment's `hh` token: the 12-hour-clock hour 01-12 of a 24-hour-clock
hour 0-23 (no meridiem marker is part of the format string). -/
def hour12 (h : Nat) : Nat := if h % 12 == 0 then 12 else h % 12

/-- moment's formatter for the format string `'YYYY-MM-DDThh:mm:ss.SSS'`
used by the source: note `hh` is the 12-hour-clock hour token. -/
def momentFormatHh (m : Moment) : String :=
  pad4 m.year ++ "-" ++ pad2 m.month ++ "-" ++ pad2 m.day ++ "T"
    ++ pad2 (hour12 m.hour) ++ ":" ++ pad2 m.minute ++ ":" ++ pad2 m.second
    ++ "." ++ pad3 m.millisecond

/-- `toGraknDateTime` (src/load_data.js lines 220-222):
`moment(isoString).format('YYYY-MM-DDThh:mm:ss.SSS')`. -/
def toGraknDateTime (isoString : String) : String :=
  match parseIsoDateTime isoString with
  | some m => momentFormatHh m
  | none => "Invalid date"

/-! ## Numeric coercion

The source coerces numeric fields with JavaScript's unary plus inside a
template splice: `${+record['balance']}` and similar.  Semantically that is
ECMAScript `ToNumber` on the raw string followed by number-to-string
conversion of the resulting value.  We model the parse exactly per the
`StringNumericLiteral` grammar (whitespace trimming, the empty string mapping
to `0`, sign, decimal digits with optional fraction and exponent, `Infinity`,
and the `0x`/`0o`/`0b` radix prefixes), keeping the exact decimal value
`num / 10 ^ scale`.  Printing renders the exact value in plain decimal
notation; this agrees with ECMAScript for every value whose source decimal is
the shortest representation of its nearest binary64 (in particular for all
integers below 2^53 and for the short decimals in the data files).  The
exponential-notation switchover ECMAScript applies outside `[1e-6, 1e21)` is
not modelled, as no field in this repository reaches it. -/

/-- ECMAScript white space and line terminators stripped by `ToNumber`
(the common code points; the exotic Unicode space separators are omitted). -/
def jsWhitespace (c : Char) : Bool :=
  c = ' ' || c = '\t' || c = '\n' || c = '\r' || c.toNat = 11 || c.toNat = 12
    || c.toNat = 0xa0 || c.toNat = 0xfeff

/-- Strip leading and trailing white space, as `ToNumber` does. -/
def trimJs (cs : List Char) : List Char :=
  ((cs.dropWhile jsWhitespace).reverse.dropWhile jsWhitespace).reverse

/-- Split off the longest leading run of decimal digits. -/
def takeDigits : List Char → List Char × List Char
  | [] => ([], [])
  | c :: rest =>
    if isDigitChar c then
      let (d, r) := takeDigits rest
      (c :: d, r)
    else ([], c :: rest)

/-- Signed digit sequence of an exponent part. -/
def parseExpDigits (cs : List Char) : Option Int :=
  match cs with
  | '+' :: r => if r.isEmpty || !allDigits r then none else some (digitsVal r)
  | '-' :: r => if r.isEmpty || !allDigits r then none else some (-(digitsVal r : Int))
  | r => if r.isEmpty || !allDigits r then none else some (digitsVal r)

/-- Optional `e`/`E` exponent part; an empty remainder means exponent `0`. -/
def parseExponentPart (cs : List Char) : Option Int :=
  match cs with
  | [] => some 0
  | 'e' :: r => parseExpDigits r
  | 'E' :: r => parseExpDigits r
  | _ => none

/-- Fold a decimal exponent into the scaled representation
`num / 10 ^ scale`. -/
def applyExponent (num scale : Nat) (e : Int) : Nat × Nat :=
  let s : Int := (scale : Int) - e
  if s ≤ 0 then (num * 10 ^ (-s).toNat, 0) else (num, s.toNat)

/-- Unsigned decimal literal body: `Digits [. Digits] [Exponent]` or
`. Digits [Exponent]`, as a scaled pair `(num, scale)`. -/
def parseUnsignedDecimal (cs : List Char) : Option (Nat × Nat) :=
  let (ip, r1) := takeDigits cs
  match r1 with
  | '.' :: r2 =>
    let (fp, r3) := takeDigits r2
    if ip.isEmpty && fp.isEmpty then none
    else (parseExponentPart r3).map fun e => applyExponent (digitsVal (ip ++ fp)) fp.length e
  | _ =>
    if ip.isEmpty then none
    else (parseExponentPart r1).map fun e => applyExponent (digitsVal ip) 0 e

/-- Hexadecimal digit value, also used (with a bound) for octal and binary. -/
def hexDigitVal? (c : Char) : Option Nat :=
  if isDigitChar c then some (c.toNat - 48)
  else if 97 ≤ c.toNat && c.toNat ≤ 102 then some (c.toNat - 87)
  else if 65 ≤ c.toNat && c.toNat ≤ 70 then some (c.toNat - 55)
  else none

/-- Value of a nonempty digit string in the given radix (2, 8 or 16). -/
def radixVal? (radix : Nat) (cs : List Char) : Option Nat :=
  if cs.isEmpty then none
  else
    cs.foldl
      (fun acc c =>
        match acc, hexDigitVal? c with
        | some a, some d => if d < radix then some (a * radix + d) else none
        | _, _ => none)
      (some 0)

/-- An ECMAScript number as `ToNumber` of a field string can produce it:
`NaN`, a signed infinity, or a finite value `± num / 10 ^ scale`. -/
inductive JsNumber where
  | nan
  | infinite (negative : Bool)
  | finite (negative : Bool) (num : Nat) (scale : Nat)
deriving DecidableEq

/-- Body after an optional sign: `Infinity` or an unsigned decimal. -/
def parseSignedBody (negative : Bool) (cs : List Char) : JsNumber :=
  if cs = "Infinity".data then .infinite negative
  else
    match parseUnsignedDecimal cs with
    | some (n, s) => .finite negative n s
    | none => .nan

/-- ECMAScript `ToNumber` on a string, the meaning of unary plus. -/
def jsToNumber (s : String) : JsNumber :=
  match trimJs s.data with
  | [] => .finite false 0 0
  | '0' :: 'x' :: r | '0' :: 'X' :: r =>
    match radixVal? 16 r with | some n => .finite false n 0 | none => .nan
  | '0' :: 'o' :: r | '0' :: 'O' :: r =>
    match radixVal? 8 r with | some n => .finite false n 0 | none => .nan
  | '0' :: 'b' :: r | '0' :: 'B' :: r =>
    match radixVal? 2 r with | some n => .finite false n 0 | none => .nan
  | '+' :: r => parseSignedBody false r
  | '-' :: r => parseSignedBody true r
  | cs => parseSignedBody false cs

/-- Drop trailing zero digits of the fraction:
`num / 10 ^ scale` in lowest decimal terms. -/
def stripTrailingZeros (num : Nat) : Nat → Nat × Nat
  | 0 => (num, 0)
  | s + 1 => if num % 10 == 0 then stripTrailingZeros (num / 10) s else (num, s + 1)

/-- Left-pad with `'0'` to the requested length. -/
def padLeftZeros (len : Nat) (s : String) : String :=
  if s.length < len then String.mk (List.replicate (len - s.length) '0') ++ s else s

/-- Canonical plain-decimal rendering of a finite value, as ECMAScript
prints it (zero prints as `"0"` regardless of sign). -/
def jsFiniteToString (negative : Bool) (num scale : Nat) : String :=
  let p := stripTrailingZeros num scale
  if p.1 = 0 then "0"
  else
    (if negative then "-" else "")
      ++ (if p.2 = 0 then toString p.1
          else toString (p.1 / 10 ^ p.2) ++ "." ++ padLeftZeros p.2 (toString (p.1 % 10 ^ p.2)))

/-- ECMAScript number-to-string conversion on the modelled values. -/
def jsNumberToString : JsNumber → String
  | .nan => "NaN"
  | .infinite false => "Infinity"
  | .infinite true => "-Infinity"
  | .finite neg n s => jsFiniteToString neg n s

/-- The text a template splice `${+raw}` produces: unary plus (`ToNumber`)
followed by number-to-string conversion. -/
def jsPlusLit (raw : String) : String := jsNumberToString (jsToNumber raw)

/-! ## Records

One structure per CSV row shape, fields in the order of the example records
shown in the source comments.  Hyphenated CSV column names map to camel case:
e.g. `first-name` is `firstName`, `account-of-receiver` is
`accountOfReceiver`.  All fields are raw strings, as `csv-parse` yields
them. -/

/-- A row of `person.csv`. -/
structure PersonRecord where
  firstName : String
  lastName : String
  gender : String
  phoneNumber : String
  city : String
  email : String
deriving DecidableEq

/-- A row of `bank.csv`. -/
structure BankRecord where
  name : String
  country : String
  headquarters : String
  freeAccounts : String
  englishCustomerService : String
  englishWebsite : String
  englishMobileApp : String
  freeWorldwideWithdrawals : String
  allowedResidents : String
deriving DecidableEq

/-- A row of `account.csv`. -/
structure AccountRecord where
  balance : String
  accountNumber : String
  openingDate : String
  accountType : String
deriving DecidableEq

/-- A row of `card.csv`. -/
structure CardRecord where
  cardNumber : String
  nameOnCard : String
  createdDate : String
  expiryDate : String
deriving DecidableEq

/-- A row of `transaction.csv`. -/
structure TransactionRecord where
  identifier : String
  amount : String
  executionDate : String
  reference : String
  category : String
  accountOfReceiver : String
  accountOfCreator : String
deriving DecidableEq

/-- A row of `contract.csv`. -/
structure ContractRecord where
  identifier : String
  signDate : String
  provider : String
  customer : String
  offer : String
deriving DecidableEq

/-- A row of `represented-by.csv`. -/
structure RepresentationRecord where
  identifier : String
  bankAccount : String
  bankCard : String
deriving DecidableEq

/-! ## Statement builders

Each definition transcribes the template literal of the corresponding loader
in the final revision of `src/load_data.js`, with its exact text, newlines
and indentation; every `${...}` splice becomes a `++` of the coerced field:
`"${record[c]}"` splices the raw field between quote characters,
`${+record[c]}` splices `jsPlusLit`, and `${toGraknDateTime(record[c])}`
splices `toGraknDateTime`. -/

/-- Statement built per row by `insertPersons` (lines 404-412). -/
def insertPersonQuery (record : PersonRecord) : String :=
  "insert $person isa person\n                , has email \"" ++ record.email
    ++ "\"\n                , has first-name \"" ++ record.firstName
    ++ "\"\n                , has last-name \"" ++ record.lastName
    ++ "\"\n                , has city \"" ++ record.city
    ++ "\"\n                , has phone-number \"" ++ record.phoneNumber
    ++ "\"\n                , has gender \"" ++ record.gender
    ++ "\"\n                ;\n    "

/-- Statement built per row by `insertBanks` (lines 447-458). -/
def insertBankQuery (record : BankRecord) : String :=
  "insert $bank isa bank\n                , has name \"" ++ record.name
    ++ "\"\n                , has country \"" ++ record.country
    ++ "\"\n                , has headquarters \"" ++ record.headquarters
    ++ "\"\n                , has free-accounts \"" ++ record.freeAccounts
    ++ "\"\n                , has english-customer-service \"" ++ record.englishCustomerService
    ++ "\"\n                , has english-website \"" ++ record.englishWebsite
    ++ "\"\n                , has english-mobile-app \"" ++ record.englishMobileApp
    ++ "\"\n                , has free-worldwide-withdrawals \"" ++ record.freeWorldwideWithdrawals
    ++ "\"\n                , has allowed-residents \"" ++ record.allowedResidents
    ++ "\"\n                ;\n    "

/-- Statement built per row by `insertAccounts` (lines 492-499); the
`datetimeString` local is `toGraknDateTime(record['opening-date'])`. -/
def insertAccountQuery (record : AccountRecord) : String :=
  "insert $account isa account\n                , has balance " ++ jsPlusLit record.balance
    ++ "\n                , has account-number \"" ++ record.accountNumber
    ++ "\"\n                , has opening-date " ++ toGraknDateTime record.openingDate
    ++ "\n                , has account-type \"" ++ record.accountType
    ++ "\"\n                ;\n    "

/-- Statement built per row by `insertCards` (lines 366-372). -/
def insertCardQuery (record : CardRecord) : String :=
  "insert $card isa card\n                , has card-number " ++ jsPlusLit record.cardNumber
    ++ "\n                , has name-on-card \"" ++ record.nameOnCard
    ++ "\"\n                , has created-date " ++ toGraknDateTime record.createdDate
    ++ "\n                , has expiry-date " ++ toGraknDateTime record.expiryDate
    ++ "\n                ;\n    "

/-- Statement built per row by `insertBankTransactionRelations`
(lines 249-260). -/
def insertBankTransactionQuery (record : TransactionRecord) : String :=
  "match $account-of-receiver isa account, has account-number \"" ++ record.accountOfReceiver
    ++ "\";\n                   $account-of-creator isa account, has account-number \""
    ++ record.accountOfCreator
    ++ "\";\n                   insert $transaction(\n                     account-of-receiver: $account-of-receiver, \n                     account-of-creator: $account-of-creator\n                   ) isa transaction;\n                   $transaction has identifier "
    ++ jsPlusLit record.identifier
    ++ ";\n                   $transaction has amount " ++ jsPlusLit record.amount
    ++ ";\n                   $transaction has reference \"" ++ record.reference
    ++ "\";\n                   $transaction has category \"" ++ record.category
    ++ "\";\n                   $transaction has execution-date "
    ++ toGraknDateTime record.executionDate
    ++ ";\n                  "

/-- Statement built per row by `insertContractRelations` (lines 291-301).
Note the identifier splice is `${record['identifier']}` — the raw string,
with no unary plus. -/
def insertContractQuery (record : ContractRecord) : String :=
  "match $bank isa bank, has name \"" ++ record.provider
    ++ "\";\n                   $customer isa person, has email \"" ++ record.customer
    ++ "\";\n                   $account isa account, has account-number \"" ++ record.offer
    ++ "\";\n                   insert $contract(\n                     provider: $bank,\n                     customer: $customer,\n                     offer: $account\n                   ) isa contract;\n                   $contract has identifier "
    ++ record.identifier
    ++ ";\n                   $contract has sign-date " ++ toGraknDateTime record.signDate
    ++ ";\n                  "

/-- Statement built per row by `insertRepresentationRelations`
(lines 330-337).  The card-number splice is `${+record['bank-card']}`; the
identifier splice is `${record['identifier']}` — raw, no unary plus. -/
def insertRepresentationQuery (record : RepresentationRecord) : String :=
  "match $account isa account, has account-number \"" ++ record.bankAccount
    ++ "\";\n                   $card isa card, has card-number " ++ jsPlusLit record.bankCard
    ++ ";\n                   insert $representation(\n                     bank-card: $card,\n                     bank-account: $account\n                   ) isa represented-by;\n                   $representation has identifier "
    ++ record.identifier
    ++ ";\n                  "

/-! ## Loader execution model

Every loader of the final revision has the same shape: open a write
transaction, read and parse the whole file into `records`, then
`for (let record of records) { await transaction.query(query) }`, then
`await transaction.commit()`.  A thrown store error propagates: the loop
stops, `commit` is never reached, and the async main sequence stops at the
failed `await`.  We model the store collaborator as a predicate `ok` saying
which statements it accepts; a loader run yields the list of store calls made
on its transaction plus a success flag.  (Failure of `commit` itself is not
modelled; no claim concerns it.) -/

/-- A call made on a loader's transaction. -/
inductive StoreEvent where
  | query (stmt : String)
  | commit
deriving DecidableEq

/-- The row loop: execute each statement in order; a rejected statement
stops the loop with an error, after the statements before it ran. -/
def execRows (ok : String → Bool) : List String → List StoreEvent × Bool
  | [] => ([], true)
  | stmt :: rest =>
    if ok stmt then
      match execRows ok rest with
      | (evs, b) => (StoreEvent.query stmt :: evs, b)
    else ([], false)

/-- One loader call: the row loop, then — only if every row succeeded — a
single `commit` on the same transaction. -/
def runLoader (ok : String → Bool) (stmts : List String) : List StoreEvent × Bool :=
  match execRows ok stmts with
  | (evs, true) => (evs ++ [StoreEvent.commit], true)
  | (evs, false) => (evs, false)

/-- The orchestrator: run the loaders in order, each awaited to completion;
a failed loader ends the run, so later loaders never execute. -/
def runLoaders (ok : String → Bool) : List (List String) → List (List StoreEvent)
  | [] => []
  | stmts :: rest =>
    match runLoader ok stmts with
    | (evs, true) => evs :: runLoaders ok rest
    | (evs, false) => [evs]

/-- The seven loaders, named, in the order the main IIFE awaits them
(src/load_data.js lines 525-532). -/
inductive LoaderName where
  | persons
  | accounts
  | banks
  | cards
  | representedBy
  | transactions
  | contracts
deriving DecidableEq

/-- The await order of the main IIFE: entity loaders first (under the
`Insert entity data` comment), then relation loaders (under
`Insert relation data`). -/
def mainLoaderSequence : List LoaderName :=
  [.persons, .accounts, .banks, .cards, .representedBy, .transactions, .contracts]

/-- The four entity loaders (the `Insert entity data` block). -/
def entityLoaders : List LoaderName := [.persons, .accounts, .banks, .cards]

/-- The three relationship loaders (the `Insert relation data` block). -/
def relationshipLoaders : List LoaderName := [.representedBy, .transactions, .contracts]

/-- The whole run of the main IIFE, given the parsed rows of the seven data
files: the orchestrator applied to each loader's statement list in the
hardcoded order. -/
def mainRun (ok : String → Bool) (persons : List PersonRecord)
    (accounts : List AccountRecord) (banks : List BankRecord)
    (cards : List CardRecord) (representations : List RepresentationRecord)
    (bankTransactions : List TransactionRecord)
    (contracts : List ContractRecord) : List (List StoreEvent) :=
  runLoaders ok
    [persons.map insertPersonQuery, accounts.map insertAccountQuery,
     banks.map insertBankQuery, cards.map insertCardQuery,
     representations.map insertRepresentationQuery,
     bankTransactions.map insertBankTransactionQuery,
     contracts.map insertContractQuery]

/-! ## Statement-template combinators

The spec (§4.2) reads each template as structured clauses: an entity
statement is one insert clause with one has-attribute clause per column; a
relationship statement is one match clause per referenced role followed by an
insert clause over the bound variables with the relationship's own attributes
as separate has-attribute statements.  These combinators express that
structure (with the templates' literal indentation); the claim theorems
equate the transcribed builders with statements assembled from them. -/

/-- One has-attribute clause of an entity insert statement, with the
template's line break and indentation. -/
def hasAttributeClause (attr value : String) : String :=
  "\n                , has " ++ attr ++ " " ++ value

/-- A raw string field spliced between quote characters, exactly as the
templates do (`"${record[c]}"`): verbatim, with no escaping. -/
def quoteStr (s : String) : String := "\"" ++ s ++ "\""

/-- An entity insert statement: a single insert clause declaring variable
`v` of type `typ`, followed by exactly one has-attribute clause per listed
`(attribute, coerced value)` pair, closed as the templates close. -/
def entityInsertStmt (v typ : String) (attrs : List (String × String)) : String :=
  "insert " ++ v ++ " isa " ++ typ
    ++ String.join (attrs.map fun p => hasAttributeClause p.1 p.2)
    ++ "\n                ;\n    "

/-- A relationship match clause: bind variable `v` to the entity of type
`typ` whose natural-key attribute `keyAttr` equals `keyValue`. -/
def relationshipMatchClause (v typ keyAttr keyValue : String) : String :=
  v ++ " isa " ++ typ ++ ", has " ++ keyAttr ++ " " ++ keyValue

/-- One has-attribute statement attached to an inserted relationship, with
the template's separator and indentation. -/
def relationshipHasStmt (relVar attr value : String) : String :=
  ";\n                   " ++ relVar ++ " has " ++ attr ++ " " ++ value

/-- The transaction statement in the structured reading: two match clauses
binding `$account-of-receiver` and `$account-of-creator` by account-number,
an insert clause using both variables in the two roles, then the
relationship's five attributes as separate has-attribute statements. -/
def bankTransactionStmtStructured (r : TransactionRecord) : String :=
  "match "
    ++ relationshipMatchClause "$account-of-receiver" "account" "account-number"
        (quoteStr r.accountOfReceiver)
    ++ ";\n                   "
    ++ relationshipMatchClause "$account-of-creator" "account" "account-number"
        (quoteStr r.accountOfCreator)
    ++ ";\n                   insert $transaction(\n                     account-of-receiver: $account-of-receiver, \n                     account-of-creator: $account-of-creator\n                   ) isa transaction"
    ++ relationshipHasStmt "$transaction" "identifier" (jsPlusLit r.identifier)
    ++ relationshipHasStmt "$transaction" "amount" (jsPlusLit r.amount)
    ++ relationshipHasStmt "$transaction" "reference" (quoteStr r.reference)
    ++ relationshipHasStmt "$transaction" "category" (quoteStr r.category)
    ++ relationshipHasStmt "$transaction" "execution-date" (toGraknDateTime r.executionDate)
    ++ ";\n                  "

/-- The contract statement in the structured reading: three match clauses,
the insert clause over the three roles, then the identifier — spliced raw —
and the sign-date as has-attribute statements. -/
def contractStmtStructured (r : ContractRecord) : String :=
  "match "
    ++ relationshipMatchClause "$bank" "bank" "name" (quoteStr r.provider)
    ++ ";\n                   "
    ++ relationshipMatchClause "$customer" "person" "email" (quoteStr r.customer)
    ++ ";\n                   "
    ++ relationshipMatchClause "$account" "account" "account-number" (quoteStr r.offer)
    ++ ";\n                   insert $contract(\n                     provider: $bank,\n                     customer: $customer,\n                     offer: $account\n                   ) isa contract"
    ++ relationshipHasStmt "$contract" "identifier" r.identifier
    ++ relationshipHasStmt "$contract" "sign-date" (toGraknDateTime r.signDate)
    ++ ";\n                  "

/-- The represented-by statement in the structured reading: two match
clauses, the insert clause over the two roles, then the identifier —
spliced raw — as a has-attribute statement. -/
def representationStmtStructured (r : RepresentationRecord) : String :=
  "match "
    ++ relationshipMatchClause "$account" "account" "account-number" (quoteStr r.bankAccount)
    ++ ";\n                   "
    ++ relationshipMatchClause "$card" "card" "card-number" (jsPlusLit r.bankCard)
    ++ ";\n                   insert $representation(\n                     bank-card: $card,\n                     bank-account: $account\n                   ) isa represented-by"
    ++ relationshipHasStmt "$representation" "identifier" r.identifier
    ++ ";\n                  "

/-- The contract statement builder as claim C2 describes it: identical to
`insertContractQuery` except that the identifier field is first parsed as a
number (unary plus) and the parsed value is embedded. -/
def contractQueryParsedIdentifier (record : ContractRecord) : String :=
  "match $bank isa bank, has name \"" ++ record.provider
    ++ "\";\n                   $customer isa person, has email \"" ++ record.customer
    ++ "\";\n                   $account isa account, has account-number \"" ++ record.offer
    ++ "\";\n                   insert $contract(\n                     provider: $bank,\n                     customer: $customer,\n                     offer: $account\n                   ) isa contract;\n                   $contract has identifier "
    ++ jsPlusLit record.identifier
    ++ ";\n                   $contract has sign-date " ++ toGraknDateTime record.signDate
    ++ ";\n                  "

/-! ## Substring utilities for concrete statements -/

/-- The pattern is an initial segment of the list. -/
def leadsWith : List Char → List Char → Bool
  | [], _ => true
  | _ :: _, [] => false
  | a :: p, b :: l => a = b && leadsWith p l

/-- The pattern occurs somewhere in the list. -/
def occursIn (pat : List Char) : List Char → Bool
  | [] => pat.isEmpty
  | c :: rest => leadsWith pat (c :: rest) || occursIn pat rest

/-- The pattern occurs as a substring of the statement. -/
def containsSub (s pat : String) : Bool := occursIn pat.data s.data

/-- Number of double-quote characters in a statement. -/
def countQuoteChars (s : String) : Nat := (s.data.filter fun c => c = '"').length

/-! ## Claim theorems -/

/-- C1: the claim says the emitted hour field equals the 24-hour hour of the
parsed input.  The format string uses moment's `hh` token, the 12-hour-clock
hour with no meridiem marker, so for the afternoon input
`2019-12-16T13:49:31.641890` the code emits `2019-12-16T01:49:31.641` — the
hour field is `01`, not the parsed hour `13`.  This theorem evaluates the
code at that failing input. -/
theorem toGraknDateTime_hour13_emits_01 :
    toGraknDateTime "2019-12-16T13:49:31.641890" = "2019-12-16T01:49:31.641" ∧
    toGraknDateTime "2019-12-16T13:49:31.641890" ≠ "2019-12-16T13:49:31.641" := by
  decide

set_option maxRecDepth 100000 in
/-- C7: for every record, each entity loader's statement is a single insert
clause with exactly one has-attribute clause per declared column — 6 for
person, 9 for bank, 4 for account, 4 for card — each clause carrying the
coerced value of its column (quoted raw string, unary-plus numeral, or
reformatted date-time). -/
theorem entity_statement_one_has_clause_per_column :
    (∀ r : PersonRecord, insertPersonQuery r =
      entityInsertStmt "$person" "person"
        [("email", quoteStr r.email), ("first-name", quoteStr r.firstName),
         ("last-name", quoteStr r.lastName), ("city", quoteStr r.city),
         ("phone-number", quoteStr r.phoneNumber), ("gender", quoteStr r.gender)]) ∧
    (∀ r : BankRecord, insertBankQuery r =
      entityInsertStmt "$bank" "bank"
        [("name", quoteStr r.name), ("country", quoteStr r.country),
         ("headquarters", quoteStr r.headquarters),
         ("free-accounts", quoteStr r.freeAccounts),
         ("english-customer-service", quoteStr r.englishCustomerService),
         ("english-website", quoteStr r.englishWebsite),
         ("english-mobile-app", quoteStr r.englishMobileApp),
         ("free-worldwide-withdrawals", quoteStr r.freeWorldwideWithdrawals),
         ("allowed-residents", quoteStr r.allowedResidents)]) ∧
    (∀ r : AccountRecord, insertAccountQuery r =
      entityInsertStmt "$account" "account"
        [("balance", jsPlusLit r.balance), ("account-number", quoteStr r.accountNumber),
         ("opening-date", toGraknDateTime r.openingDate),
         ("account-type", quoteStr r.accountType)]) ∧
    (∀ r : CardRecord, insertCardQuery r =
      entityInsertStmt "$card" "card"
        [("card-number", jsPlusLit r.cardNumber), ("name-on-card", quoteStr r.nameOnCard),
         ("created-date", toGraknDateTime r.createdDate),
         ("expiry-date", toGraknDateTime r.expiryDate)]) := by
  refine ⟨fun r => ?_, fun r => ?_, fun r => ?_, fun r => ?_⟩ <;>
    (apply String.ext
     simp [insertPersonQuery, insertBankQuery, insertAccountQuery, insertCardQuery,
       entityInsertStmt, hasAttributeClause, quoteStr, String.join, String.data_append])

set_option maxRecDepth 100000 in
/-- C6: every string-typed field is spliced verbatim between double-quote
characters with no escaping (`quoteStr` wraps the raw value and nothing
else), and consequently a field value containing a double quote yields that
quote unescaped inside the quoted literal: with email `a"b@c.com` the person
statement contains `has email "a"b@c.com"` and carries 13 double-quote
characters — an odd count, so one quote sits raw inside a literal. -/
theorem string_fields_spliced_verbatim_unescaped :
    (∀ r : PersonRecord, insertPersonQuery r =
      entityInsertStmt "$person" "person"
        [("email", "\"" ++ r.email ++ "\""), ("first-name", "\"" ++ r.firstName ++ "\""),
         ("last-name", "\"" ++ r.lastName ++ "\""), ("city", "\"" ++ r.city ++ "\""),
         ("phone-number", "\"" ++ r.phoneNumber ++ "\""),
         ("gender", "\"" ++ r.gender ++ "\"")]) ∧
    containsSub (insertPersonQuery ⟨"A", "B", "female", "123", "X", "a\"b@c.com"⟩)
      "has email \"a\"b@c.com\"" = true ∧
    countQuoteChars (insertPersonQuery ⟨"A", "B", "female", "123", "X", "a\"b@c.com"⟩)
      = 13 := by
  refine ⟨fun r => ?_, by decide, by decide⟩
  apply String.ext
  simp [insertPersonQuery, entityInsertStmt, hasAttributeClause, String.join,
    String.data_append]

set_option maxRecDepth 100000 in
/-- C8: for every transaction record the statement is exactly two match
clauses binding the distinct variables `$account-of-receiver` and
`$account-of-creator` to the record's receiver and creator account-number
values, an insert clause using both variables in the two roles, and the
relationship's five attributes as separate has-attribute statements in the
same query. -/
theorem transaction_statement_matches_two_distinct_variables :
    (∀ r : TransactionRecord,
      insertBankTransactionQuery r = bankTransactionStmtStructured r) ∧
    ("$account-of-receiver" : String) ≠ "$account-of-creator" := by
  refine ⟨fun r => ?_, by decide⟩
  apply String.ext
  simp [insertBankTransactionQuery, bankTransactionStmtStructured,
    relationshipMatchClause, relationshipHasStmt, quoteStr, String.data_append]

set_option maxRecDepth 100000 in
/-- C2 counterexample: the claim says every loader parses numeric fields
before embedding — in particular that the contract loader embeds the parsed
number for identifier.  The contract template splices
`${record['identifier']}` with no unary plus, so for identifier `007` the
emitted statement contains `has identifier 007` verbatim, while the parsed
number would print as `7`: the built statement differs from the
claim-described builder `contractQueryParsedIdentifier` at this input. -/
theorem contract_identifier_raw_counterexample :
    insertContractQuery
      ⟨"007", "2019-01-13T10:49:31.641721", "Commerzbank",
       "catalinasargent@googlemail.com", "DE82444435329779109646"⟩ ≠
      contractQueryParsedIdentifier
        ⟨"007", "2019-01-13T10:49:31.641721", "Commerzbank",
         "catalinasargent@googlemail.com", "DE82444435329779109646"⟩ ∧
    containsSub
      (insertContractQuery
        ⟨"007", "2019-01-13T10:49:31.641721", "Commerzbank",
         "catalinasargent@googlemail.com", "DE82444435329779109646"⟩)
      "has identifier 007;" = true ∧
    jsPlusLit "007" = "7" := by
  refine ⟨by decide, by decide, by decide⟩

set_option maxRecDepth 100000 in
/-- C2 amended: balance, card-number, amount and the transaction loader's
identifier are parsed with unary plus and the parsed numeral is embedded
(`jsPlusLit`), but the contract and represented-by loaders embed their
identifier field as the raw string, verbatim and unparsed. -/
theorem numeric_fields_unary_plus_except_relation_identifiers :
    (∀ r : TransactionRecord,
      insertBankTransactionQuery r = bankTransactionStmtStructured r) ∧
    (∀ r : RepresentationRecord,
      insertRepresentationQuery r = representationStmtStructured r) ∧
    (∀ r : ContractRecord, insertContractQuery r = contractStmtStructured r) ∧
    (∀ r : AccountRecord, insertAccountQuery r =
      entityInsertStmt "$account" "account"
        [("balance", jsPlusLit r.balance), ("account-number", quoteStr r.accountNumber),
         ("opening-date", toGraknDateTime r.openingDate),
         ("account-type", quoteStr r.accountType)]) ∧
    (∀ r : CardRecord, insertCardQuery r =
      entityInsertStmt "$card" "card"
        [("card-number", jsPlusLit r.cardNumber), ("name-on-card", quoteStr r.nameOnCard),
         ("created-date", toGraknDateTime r.createdDate),
         ("expiry-date", toGraknDateTime r.expiryDate)]) := by
  refine ⟨fun r => ?_, fun r => ?_, fun r => ?_, fun r => ?_, fun r => ?_⟩ <;>
    (apply String.ext
     simp [insertBankTransactionQuery, bankTransactionStmtStructured,
       insertRepresentationQuery, representationStmtStructured,
       insertContractQuery, contractStmtStructured, insertAccountQuery,
       insertCardQuery, entityInsertStmt, hasAttributeClause,
       relationshipMatchClause, relationshipHasStmt, quoteStr, String.join,
       String.data_append])

/-- Helper: the row loop on statements that are all accepted executes every
row, in order, and reports success. -/
theorem execRows_all_ok (ok : String → Bool) (stmts : List String)
    (h : ∀ s ∈ stmts, ok s = true) :
    execRows ok stmts = (stmts.map StoreEvent.query, true) := by
  induction stmts with
  | nil => rfl
  | cons s rest ih =>
    have hs : ok s = true := h s (by simp)
    simp [execRows, hs, ih fun t ht => h t (by simp [ht])]

/-- Helper: if the first `k` statements are accepted and the `(k+1)`-st is
rejected, the row loop executes exactly the first `k` statements and reports
failure. -/
theorem execRows_fail (ok : String → Bool) :
    ∀ (stmts : List String) (k : Nat) (hk : k < stmts.length),
      (∀ i (h : i < k), ok (stmts.get ⟨i, Nat.lt_trans h hk⟩) = true) →
      ok (stmts.get ⟨k, hk⟩) = false →
      execRows ok stmts = ((stmts.take k).map StoreEvent.query, false)
  | [], k, hk, _, _ => absurd hk (by simp)
  | s :: rest, 0, _, _, hfail => by
    simp only [List.get] at hfail
    simp [execRows, hfail]
  | s :: rest, k + 1, hk, hbefore, hfail => by
    have hs : ok s = true := hbefore 0 (Nat.succ_pos k)
    have ih := execRows_fail ok rest k (Nat.lt_of_succ_lt_succ hk)
      (fun i h => hbefore (i + 1) (Nat.succ_lt_succ h)) hfail
    simp [execRows, hs, ih, List.take]

/-- Helper: a loader whose `(k+1)`-st statement is rejected executes exactly
the first `k` statements on its transaction and never reaches `commit`. -/
theorem runLoader_fail (ok : String → Bool) (stmts : List String) (k : Nat)
    (hk : k < stmts.length)
    (hbefore : ∀ i (h : i < k), ok (stmts.get ⟨i, Nat.lt_trans h hk⟩) = true)
    (hfail : ok (stmts.get ⟨k, hk⟩) = false) :
    runLoader ok stmts = ((stmts.take k).map StoreEvent.query, false) := by
  simp [runLoader, execRows_fail ok stmts k hk hbefore hfail]

/-- Helper: the orchestrator runs a prefix of fully successful loaders and
then continues with the rest. -/
theorem runLoaders_pre_success (ok : String → Bool) (pre rest : List (List String))
    (hpre : ∀ l ∈ pre, (runLoader ok l).2 = true) :
    runLoaders ok (pre ++ rest) =
      pre.map (fun l => (runLoader ok l).1) ++ runLoaders ok rest := by
  induction pre with
  | nil => simp
  | cons l ls ih =>
    have hl : (runLoader ok l).2 = true := hpre l (by simp)
    have htail := ih fun t ht => hpre t (by simp [ht])
    cases hrl : runLoader ok l with
    | mk evs b =>
      rw [hrl] at hl
      subst hl
      simp [runLoaders, hrl, htail]

/-- C3: if the loaders before the failing one all succeed and the failing
loader's `(k+1)`-st statement is rejected by the store, then the run shows:
that loader executed exactly its first `k` statements, its transaction saw no
`commit`, and the run ends with it — the loaders after it contribute nothing
to the trace. -/
theorem loader_failure_aborts_uncommitted_and_halts (ok : String → Bool)
    (pre : List (List String)) (stmts : List String) (post : List (List String))
    (k : Nat)
    (hpre : ∀ l ∈ pre, (runLoader ok l).2 = true)
    (hk : k < stmts.length)
    (hbefore : ∀ i (h : i < k), ok (stmts.get ⟨i, Nat.lt_trans h hk⟩) = true)
    (hfail : ok (stmts.get ⟨k, hk⟩) = false) :
    runLoaders ok (pre ++ stmts :: post) =
      pre.map (fun l => (runLoader ok l).1)
        ++ [(stmts.take k).map StoreEvent.query] ∧
    StoreEvent.commit ∉ (stmts.take k).map StoreEvent.query ∧
    (runLoaders ok (pre ++ stmts :: post)).length = pre.length + 1 := by
  have hfailL := runLoader_fail ok stmts k hk hbefore hfail
  have hmain : runLoaders ok (pre ++ stmts :: post) =
      pre.map (fun l => (runLoader ok l).1)
        ++ [(stmts.take k).map StoreEvent.query] := by
    rw [runLoaders_pre_success ok pre (stmts :: post) hpre]
    simp [runLoaders, hfailL]
  refine ⟨hmain, ?_, by rw [hmain]; simp⟩
  intro hmem
  rw [List.mem_map] at hmem
  obtain ⟨s, _, hs⟩ := hmem
  simp at hs

/-- C3 witness: a file of five rows whose third statement the store rejects,
preceded by one successful loader and followed by one that must not run:
rows 1-2 execute, no commit, and the run has exactly two loader traces. -/
theorem loader_failure_witness :
    runLoaders (fun s => s != "row3")
        ([["a1", "a2"]] ++ ["row1", "row2", "row3", "row4", "row5"] :: [["z1"]]) =
      [["a1", "a2"]].map (fun l => (runLoader (fun s => s != "row3") l).1)
        ++ [(["row1", "row2", "row3", "row4", "row5"].take 2).map StoreEvent.query] ∧
    StoreEvent.commit ∉ (["row1", "row2", "row3", "row4", "row5"].take 2).map
      StoreEvent.query ∧
    (runLoaders (fun s => s != "row3")
        ([["a1", "a2"]] ++ ["row1", "row2", "row3", "row4", "row5"] :: [["z1"]])).length =
      [["a1", "a2"]].length + 1 :=
  loader_failure_aborts_uncommitted_and_halts (fun s => s != "row3")
    [["a1", "a2"]] ["row1", "row2", "row3", "row4", "row5"] [["z1"]] 2
    (by decide) (by decide) (by decide) (by decide)

/-- C4: the orchestrator's await order is exactly persons, accounts, banks,
cards, represented-by, transactions, contracts, and in that order every
entity loader's position is strictly before every relationship loader's
position; the model `runLoaders`/`mainRun` is strictly sequential, so each
loader's whole trace precedes the next loader's. -/
theorem main_sequence_fixed_order :
    mainLoaderSequence =
      [LoaderName.persons, LoaderName.accounts, LoaderName.banks, LoaderName.cards,
       LoaderName.representedBy, LoaderName.transactions, LoaderName.contracts] ∧
    ∀ i j : Fin mainLoaderSequence.length,
      mainLoaderSequence.get i ∈ entityLoaders →
      mainLoaderSequence.get j ∈ relationshipLoaders → i < j := by
  exact ⟨by decide, by decide⟩

/-- C9: a loader whose source file parses to zero data records executes zero
statements on its transaction and still commits exactly once: its trace is
the single event `commit`.  (`build` is any of the per-record statement
builders; an empty record list yields an empty statement list.) -/
theorem empty_file_zero_statements_one_commit (α : Type) (build : α → String)
    (ok : String → Bool) :
    runLoader ok (List.map build ([] : List α)) = ([StoreEvent.commit], true) := rfl

set_option maxRecDepth 100000 in
/-- C10: an empty string in a unary-plus-coerced numeric field does not fail
at build time: `+''` evaluates to `0` and the statement embeds the literal
`0` for that attribute — shown for card-number in the card loader, balance in
the account loader, and identifier and amount in the transaction loader. -/
theorem empty_numeric_cell_loads_zero :
    (∀ r : CardRecord, r.cardNumber = "" →
      insertCardQuery r =
        "insert $card isa card\n                , has card-number 0\n                , has name-on-card \""
          ++ r.nameOnCard ++ "\"\n                , has created-date "
          ++ toGraknDateTime r.createdDate ++ "\n                , has expiry-date "
          ++ toGraknDateTime r.expiryDate ++ "\n                ;\n    ") ∧
    (∀ r : AccountRecord, r.balance = "" →
      insertAccountQuery r =
        "insert $account isa account\n                , has balance 0\n                , has account-number \""
          ++ r.accountNumber ++ "\"\n                , has opening-date "
          ++ toGraknDateTime r.openingDate ++ "\n                , has account-type \""
          ++ r.accountType ++ "\"\n                ;\n    ") ∧
    (∀ r : TransactionRecord, r.identifier = "" → r.amount = "" →
      insertBankTransactionQuery r =
        "match $account-of-receiver isa account, has account-number \""
          ++ r.accountOfReceiver
          ++ "\";\n                   $account-of-creator isa account, has account-number \""
          ++ r.accountOfCreator
          ++ "\";\n                   insert $transaction(\n                     account-of-receiver: $account-of-receiver, \n                     account-of-creator: $account-of-creator\n                   ) isa transaction;\n                   $transaction has identifier 0;\n                   $transaction has amount 0;\n                   $transaction has reference \""
          ++ r.reference
          ++ "\";\n                   $transaction has category \"" ++ r.category
          ++ "\";\n                   $transaction has execution-date "
          ++ toGraknDateTime r.executionDate
          ++ ";\n                  ") ∧
    jsPlusLit "" = "0" := by
  refine ⟨fun r h => ?_, fun r h => ?_, fun r h1 h2 => ?_, by decide⟩
  · have h0 : jsPlusLit r.cardNumber = "0" := by rw [h]; decide
    apply String.ext
    simp [insertCardQuery, h0, String.data_append]
  · have h0 : jsPlusLit r.balance = "0" := by rw [h]; decide
    apply String.ext
    simp [insertAccountQuery, h0, String.data_append]
  · have h0 : jsPlusLit r.identifier = "0" := by rw [h1]; decide
    have h1' : jsPlusLit r.amount = "0" := by rw [h2]; decide
    apply String.ext
    simp [insertBankTransactionQuery, h0, h1', String.data_append]

set_option maxRecDepth 100000 in
/-- C10 witness: concrete records with empty numeric cells, evaluated through
the theorem at those inputs. -/
theorem empty_numeric_cell_witness :
    insertCardQuery ⟨"", "Catalina Sargent", "2019-01-17T10:49:31.641721",
        "2029-01-14T10:49:31.641721"⟩ =
      "insert $card isa card\n                , has card-number 0\n                , has name-on-card \""
        ++ "Catalina Sargent" ++ "\"\n                , has created-date "
        ++ toGraknDateTime "2019-01-17T10:49:31.641721"
        ++ "\n                , has expiry-date "
        ++ toGraknDateTime "2029-01-14T10:49:31.641721" ++ "\n                ;\n    " ∧
    insertAccountQuery ⟨"", "DE82444435329779109646", "2019-01-16T10:49:31.641721",
        "credit"⟩ =
      "insert $account isa account\n                , has balance 0\n                , has account-number \""
        ++ "DE82444435329779109646" ++ "\"\n                , has opening-date "
        ++ toGraknDateTime "2019-01-16T10:49:31.641721"
        ++ "\n                , has account-type \"" ++ "credit"
        ++ "\"\n                ;\n    " :=
  ⟨empty_numeric_cell_loads_zero.1
      ⟨"", "Catalina Sargent", "2019-01-17T10:49:31.641721",
       "2029-01-14T10:49:31.641721"⟩ rfl,
   empty_numeric_cell_loads_zero.2.1
      ⟨"", "DE82444435329779109646", "2019-01-16T10:49:31.641721", "credit"⟩ rfl⟩

/-- C7 witness: the person entity statement at the spec's example record. -/
theorem entity_statement_witness :
    insertPersonQuery ⟨"A", "B", "female", "123", "X", "a@b.com"⟩ =
      entityInsertStmt "$person" "person"
        [("email", quoteStr "a@b.com"), ("first-name", quoteStr "A"),
         ("last-name", quoteStr "B"), ("city", quoteStr "X"),
         ("phone-number", quoteStr "123"), ("gender", quoteStr "female")] :=
  entity_statement_one_has_clause_per_column.1 ⟨"A", "B", "female", "123", "X", "a@b.com"⟩

/-- C6 witness: the verbatim-quoting equation at the record whose email
contains a double-quote character. -/
theorem string_fields_witness :
    insertPersonQuery ⟨"A", "B", "female", "123", "X", "a\"b@c.com"⟩ =
      entityInsertStmt "$person" "person"
        [("email", "\"" ++ "a\"b@c.com" ++ "\""), ("first-name", "\"" ++ "A" ++ "\""),
         ("last-name", "\"" ++ "B" ++ "\""), ("city", "\"" ++ "X" ++ "\""),
         ("phone-number", "\"" ++ "123" ++ "\""),
         ("gender", "\"" ++ "female" ++ "\"")] :=
  string_fields_spliced_verbatim_unescaped.1 ⟨"A", "B", "female", "123", "X", "a\"b@c.com"⟩

/-- C8 witness: the transaction statement at the spec's example record, with
the distinctness of the two bound variables. -/
theorem transaction_statement_witness :
    insertBankTransactionQuery
        ⟨"9", "803.41", "2019-12-16T10:49:31.641890", "thanks", "transfer",
         "DE33510125629974889896", "DE10985785971549145687"⟩ =
      bankTransactionStmtStructured
        ⟨"9", "803.41", "2019-12-16T10:49:31.641890", "thanks", "transfer",
         "DE33510125629974889896", "DE10985785971549145687"⟩ ∧
    ("$account-of-receiver" : String) ≠ "$account-of-creator" :=
  ⟨transaction_statement_matches_two_distinct_variables.1
      ⟨"9", "803.41", "2019-12-16T10:49:31.641890", "thanks", "transfer",
       "DE33510125629974889896", "DE10985785971549145687"⟩,
   transaction_statement_matches_two_distinct_variables.2⟩

/-- C2 witness: the amended numeric-coercion description at the example
contract and represented-by records. -/
theorem numeric_fields_witness :
    insertContractQuery
        ⟨"1", "2019-01-13T10:49:31.641721", "Commerzbank",
         "catalinasargent@googlemail.com", "DE82444435329779109646"⟩ =
      contractStmtStructured
        ⟨"1", "2019-01-13T10:49:31.641721", "Commerzbank",
         "catalinasargent@googlemail.com", "DE82444435329779109646"⟩ ∧
    insertRepresentationQuery ⟨"1", "DE82444435329779109646", "70120805493"⟩ =
      representationStmtStructured ⟨"1", "DE82444435329779109646", "70120805493"⟩ :=
  ⟨numeric_fields_unary_plus_except_relation_identifiers.2.2.1
      ⟨"1", "2019-01-13T10:49:31.641721", "Commerzbank",
       "catalinasargent@googlemail.com", "DE82444435329779109646"⟩,
   numeric_fields_unary_plus_except_relation_identifiers.2.1
      ⟨"1", "DE82444435329779109646", "70120805493"⟩⟩

/-- C4 witness: the position of the first entity loader (persons) is
strictly before the position of the first relationship loader
(represented-by). -/
theorem main_sequence_witness :
    (⟨0, by decide⟩ : Fin mainLoaderSequence.length) < ⟨4, by decide⟩ :=
  main_sequence_fixed_order.2 ⟨0, by decide⟩ ⟨4, by decide⟩ (by decide) (by decide)

/-- C9 witness: the person loader on an empty record list, executed against
a store that accepts everything. -/
theorem empty_file_witness :
    runLoader (fun _ => true) (List.map insertPersonQuery ([] : List PersonRecord)) =
      ([StoreEvent.commit], true) :=
  empty_file_zero_statements_one_commit PersonRecord insertPersonQuery fun _ => true

end LoadData
